import Mathlib

/-!
Shallow embedding of the aggregation/reporting core of the Happenly
event-planning app (src/main.py, src/pages/events.py).

The embedded parts are:
* the dashboard aggregates (RSVP stats, budget stats, task stats,
  src/pages/events.py lines 492-506);
* the calendar projection loop (src/pages/events.py lines 542-566);
* the `load_events` query and the "Save Changes" update
  (src/pages/events.py lines 46-54 and 181-192).

Python numbers (budgets, costs) are modelled as rationals; where the
order-dependence of float summation matters, an explicit IEEE-754
binary64 rounding model over ℚ is used instead.  Database rows are
modelled as Lean structures whose fields mirror the columns the code
reads, with nullable columns as `Option`.
-/

namespace Happenly

/-- A guest row as read by the dashboard (table "guests"). -/
structure Guest where
  guestid : Nat
  name : String
  email : String
  contactnumber : Option String
  rsvpstatus : String
deriving Repr, DecidableEq

/-- A vendor row as read by the dashboard (table "vendors").
`cost` is nullable in the code (`float(v["cost"] or 0)`). -/
structure Vendor where
  vendorid : Nat
  name : String
  type : Option String
  contactinfo : Option String
  cost : Option ℚ
deriving Repr, DecidableEq

/-- A task row as read by the dashboard (table "tasks"). -/
structure Task where
  taskid : Nat
  title : String
  description : Option String
  duedate : String
  assignedto : String
  status : String
deriving Repr, DecidableEq

/-! ### RSVP stats (src/pages/events.py lines 492-495) -/

/-- `total_guests = len(guests)` (line 492). -/
def total_guests (guests : List Guest) : Nat :=
  guests.length

/-- `accepted = sum(1 for g in guests if g["rsvpstatus"] == "Accepted")` (line 493). -/
def accepted (guests : List Guest) : Nat :=
  guests.countP (fun g => g.rsvpstatus == "Accepted")

/-- `pending = sum(1 for g in guests if g["rsvpstatus"] == "Pending")` (line 494). -/
def pending (guests : List Guest) : Nat :=
  guests.countP (fun g => g.rsvpstatus == "Pending")

/-- `declined = sum(1 for g in guests if g["rsvpstatus"] == "Declined")` (line 495). -/
def declined (guests : List Guest) : Nat :=
  guests.countP (fun g => g.rsvpstatus == "Declined")

/-! ### Budget stats (src/pages/events.py lines 498-501) -/

/-- `vendor_spend = sum(float(v["cost"] or 0) for v in vendors)` (line 500):
a null cost contributes 0. -/
def vendor_spend (vendors : List Vendor) : ℚ :=
  (vendors.map (fun v => v.cost.getD 0)).sum

/-- `total_budget = float(event_row.get("budget") or 0)` (line 499), applied to
the selected event row's nullable budget column. -/
def total_budget (budget : Option ℚ) : ℚ :=
  budget.getD 0

/-- `remaining = total_budget - vendor_spend` (line 501). -/
def remaining (budget : Option ℚ) (vendors : List Vendor) : ℚ :=
  total_budget budget - vendor_spend vendors

/-! ### Task stats (src/pages/events.py lines 504-506).
The dashboard computes exactly these three counters for tasks; unlike the
guest stats there is no `len(tasks)` total. -/

/-- `completed_tasks = sum(1 for t in tasks if t["status"] == "Completed")` (line 504). -/
def completed_tasks (tasks : List Task) : Nat :=
  tasks.countP (fun t => t.status == "Completed")

/-- `in_progress_tasks = sum(1 for t in tasks if t["status"] == "In Progress")` (line 505). -/
def in_progress_tasks (tasks : List Task) : Nat :=
  tasks.countP (fun t => t.status == "In Progress")

/-- `not_started_tasks = sum(1 for t in tasks if t["status"] == "Not Started")` (line 506). -/
def not_started_tasks (tasks : List Task) : Nat :=
  tasks.countP (fun t => t.status == "Not Started")

/-- The complete tuple of task-derived quantities the dashboard computes
(lines 504-506, consumed by the bar chart at lines 526-531). -/
def task_stats (tasks : List Task) : Nat × Nat × Nat :=
  (completed_tasks tasks, in_progress_tasks tasks, not_started_tasks tasks)

/-! ### Calendar projection (src/pages/events.py lines 542-566)

The calendar tab turns each event row into a FullCalendar entry:
`start_dt = datetime.fromisoformat(f"{date_str}T{time_str}")`,
`end_dt = start_dt + timedelta(hours=2)`, with `time_str` defaulting to
"09:00:00" when the row's time is null and the background color looked up
in `status_colors` with default "#3788d8".  The stored time column is
always a well-formed "HH:MM:SS" string (written by
`ev_time.strftime("%H:%M:%S")`), so it is modelled as a typed
`Option Time`; the date column reaches the loop as an arbitrary string
(`date_str = str(e["date"])`), so parsing it can fail. -/

/-- A calendar date as parsed from the date string. -/
structure Date where
  year : Nat
  month : Nat
  day : Nat
deriving Repr, DecidableEq

/-- Gregorian leap-year test (as used by Python's `datetime`). -/
def isLeap (y : Nat) : Bool :=
  (y % 4 == 0 && y % 100 != 0) || y % 400 == 0

/-- Number of days in a month of a given year. -/
def daysInMonth (y m : Nat) : Nat :=
  if m = 2 then (if isLeap y then 29 else 28)
  else if m = 4 ∨ m = 6 ∨ m = 9 ∨ m = 11 then 30
  else 31

/-- A date is valid when it denotes an actual Gregorian calendar day in the
range `datetime` supports (years 1-9999). -/
def Date.valid (d : Date) : Bool :=
  1 ≤ d.year && d.year ≤ 9999 && 1 ≤ d.month && d.month ≤ 12 &&
    1 ≤ d.day && d.day ≤ daysInMonth d.year d.month

/-- A time of day, the typed form of the stored "HH:MM:SS" strings. -/
structure Time where
  hour : Nat
  minute : Nat
  second : Nat
deriving Repr, DecidableEq

/-- Seconds since midnight. -/
def Time.toSec (t : Time) : Nat :=
  t.hour * 3600 + t.minute * 60 + t.second

/-- A timestamp: a calendar day plus seconds since its midnight
(the model of Python's `datetime`). -/
structure DateTime where
  date : Date
  sec : Nat
deriving Repr, DecidableEq

/-- The day after `d` (used when adding a duration crosses midnight). -/
def Date.next (d : Date) : Date :=
  if d.day < daysInMonth d.year d.month then ⟨d.year, d.month, d.day + 1⟩
  else if d.month < 12 then ⟨d.year, d.month + 1, 1⟩
  else ⟨d.year + 1, 1, 1⟩

/-- Add `n` seconds (for `n ≤ 86400`) to a timestamp, rolling over midnight
when needed: the model of `datetime.__add__` for a short `timedelta`.
Python's `datetime` tops out at `datetime.max` (9999-12-31 23:59:59.999999):
when the addition would roll past the last representable day the program
raises `OverflowError`, modelled as `none`. -/
def DateTime.addSeconds (dt : DateTime) (n : Nat) : Option DateTime :=
  if dt.sec + n < 86400 then some ⟨dt.date, dt.sec + n⟩
  else if dt.date = ⟨9999, 12, 31⟩ then none
  else some ⟨dt.date.next, dt.sec + n - 86400⟩

/-- `timedelta(hours=n)` addition: `n` hours are `n * 3600` seconds. -/
def DateTime.addHours (dt : DateTime) (n : Nat) : Option DateTime :=
  dt.addSeconds (n * 3600)

/-- The numeric value of a decimal digit character, if it is one. -/
def digitVal (c : Char) : Option Nat :=
  if c.isDigit then some (c.toNat - 48) else none

/-- Read a list of characters as a base-10 numeral; `none` on a non-digit. -/
def parseDigits (cs : List Char) : Option Nat :=
  cs.foldl
    (fun acc c =>
      match acc, digitVal c with
      | some n, some d => some (n * 10 + d)
      | _, _ => none)
    (some 0)

/-- The date part of `datetime.fromisoformat` on `f"{date_str}T{time_str}"`
(line 554): the date string parses when it has the shape `YYYY-MM-DD` with
all-digit fields denoting a valid calendar day, and fails otherwise. -/
def parseDate (s : String) : Option Date :=
  match s.toList with
  | [y1, y2, y3, y4, s1, m1, m2, s2, d1, d2] =>
    if s1 == '-' && s2 == '-' then
      match parseDigits [y1, y2, y3, y4], parseDigits [m1, m2], parseDigits [d1, d2] with
      | some y, some m, some d =>
        if Date.valid ⟨y, m, d⟩ then some ⟨y, m, d⟩ else none
      | _, _, _ => none
    else none
  | _ => none

/-- The projector's input: the fields of an event row the calendar loop
reads (lines 551-564). -/
structure CalEvent where
  title : String
  date : String
  time : Option Time
  status : String
deriving Repr, DecidableEq

/-- One FullCalendar entry as appended at lines 558-566.  The dict key
"end" is a Lean keyword, hence the field name `endTime`. -/
structure TimeBlock where
  title : String
  start : DateTime
  endTime : DateTime
  resourceId : String
  backgroundColor : String
deriving Repr, DecidableEq

/-- The unrecoverable failures of the projection: `datetime.fromisoformat`
raising on a malformed date (the spec's `InvalidDateError`), and
`datetime.__add__` raising `OverflowError` when the 2-hour addition
exceeds `datetime.max`.  Neither is caught by the calendar loop. -/
inductive ProjectError where
  | InvalidDateError
  | OverflowError
deriving Repr, DecidableEq

/-- `status_colors` (lines 542-546). -/
def status_colors : List (String × String) :=
  [("upcoming", "#3788d8"), ("ongoing", "#28a745"), ("completed", "#6c757d")]

/-- `status_colors.get(status, "#3788d8")` (line 564). -/
def statusColor (status : String) : String :=
  (status_colors.lookup status).getD "#3788d8"

/-- The body of the calendar loop for one event (lines 549-566):
`time_str = e.get("time") or "09:00:00"`, parse the date (failing with
`InvalidDateError` when it is malformed), `end_dt = start_dt +
timedelta(hours=2)` (raising `OverflowError` past `datetime.max`), and
build the calendar entry. -/
def project (e : CalEvent) : Except ProjectError TimeBlock :=
  let time_str : Time := e.time.getD ⟨9, 0, 0⟩
  match parseDate e.date with
  | none => Except.error ProjectError.InvalidDateError
  | some d =>
    let start_dt : DateTime := ⟨d, time_str.toSec⟩
    match start_dt.addHours 2 with
    | none => Except.error ProjectError.OverflowError
    | some end_dt =>
      Except.ok
        { title := e.title
          start := start_dt
          endTime := end_dt
          resourceId := "a"
          backgroundColor := statusColor e.status }

/-! ### Event rows, `load_events` and the "Save Changes" update
(src/pages/events.py lines 46-54 and 181-192)

The events table is modelled as a list of rows.  The `date` column is a
SQL DATE (every stored value is a calendar date, inserted via
`ev_date.isoformat()`), so it is typed as `Date` here; `Date.key` is its
value on the day-number axis the backend orders by. -/

/-- An events-table row with the columns the page reads and writes. -/
structure EventRow where
  eventid : Nat
  title : String
  description : Option String
  date : Date
  time : Option Time
  venue : Option String
  category : Option String
  budget : Option ℚ
  status : String
  auth_user_id : String
deriving Repr, DecidableEq

/-- The sort key of a date: dates compare as their
(year, month, day) triples do lexicographically, which for
month ≤ 12 and day ≤ 31 is this numeral. -/
def Date.key (d : Date) : Nat :=
  d.year * 10000 + d.month * 100 + d.day

/-- `load_events(auth_id)` (lines 46-54): the backend returns the events
table filtered by `.eq("auth_user_id", auth_id)` and sorted by
`.order("date")`, ascending.  The query itself runs in the external
store; its documented semantics (filter, then stable ascending sort on
the date column) is modelled here over the table's rows. -/
def load_events (db : List EventRow) (auth_id : String) : List EventRow :=
  (db.filter (fun e => e.auth_user_id == auth_id)).mergeSort
    (fun a b => a.date.key ≤ b.date.key)

/-- The update the "Save Changes" button applies to one row (lines 186-188):
`{"status": new_status, "budget": new_budget}` on rows matching
`.eq("eventid", eventid)`, every other column untouched. -/
def updateRow (eventid : Nat) (new_status : String) (new_budget : ℚ)
    (e : EventRow) : EventRow :=
  if e.eventid == eventid then
    { e with status := new_status, budget := some new_budget }
  else e

/-- The whole table after the "Save Changes" update: matching rows are
rewritten in place, the rest of the table is untouched. -/
def update_event (db : List EventRow) (eventid : Nat) (new_status : String)
    (new_budget : ℚ) : List EventRow :=
  db.map (updateRow eventid new_status new_budget)

/-! ### IEEE binary64 semantics of the vendor-cost summation

`sum(float(v["cost"] or 0) for v in vendors)` (line 500) operates on
Python floats: IEEE-754 binary64 values, added left-to-right with every
partial sum rounded to the nearest double (ties to even).  A finite
binary64 value is a rational `± m * 2^e` with `m < 2^53`, so the float
computation is modelled inside ℚ by an explicit rounding function.  The
model covers the finite, non-overflowing range (costs are event budgets,
far below 2^1024). -/

/-- `⌊log₂ (num / den)⌋` for `num, den ≥ 1`: the binary exponent of a
positive rational. -/
def floorLog2Rat (num den : Nat) : Int :=
  let nl := Nat.log2 num
  let dl := Nat.log2 den
  let base : Int := (nl : Int) - (dl : Int)
  let geBase : Bool :=
    if dl ≤ nl then den * 2 ^ (nl - dl) ≤ num else den ≤ num * 2 ^ (dl - nl)
  if geBase then base else base - 1

/-- Round `num / den` (for `den ≥ 1`) to the nearest natural, ties to
even: the rounding step of IEEE round-to-nearest-even. -/
def roundHalfEvenNat (num den : Nat) : Nat :=
  let q := num / den
  let r := num % den
  if 2 * r < den then q
  else if den < 2 * r then q + 1
  else if q % 2 = 0 then q else q + 1

/-- Round a rational to the nearest IEEE-754 binary64 value (round to
nearest, ties to even; subnormals below 2^(-1074) included): the value of
a Python float. -/
def roundDouble (q : ℚ) : ℚ :=
  if q = 0 then 0
  else
    let num := q.num.natAbs
    let den := q.den
    let e : Int := max (floorLog2Rat num den - 52) (-1074)
    let m : Nat :=
      if 0 ≤ e then roundHalfEvenNat num (den * 2 ^ e.toNat)
      else roundHalfEvenNat (num * 2 ^ (-e).toNat) den
    let mag : ℚ :=
      if 0 ≤ e then ((m * 2 ^ e.toNat : Nat) : ℚ)
      else (m : ℚ) / ((2 ^ (-e).toNat : Nat) : ℚ)
    if q < 0 then -mag else mag

/-- IEEE binary64 addition: the exact sum, rounded to the nearest double.
This is what Python's `+` on floats computes. -/
def fadd (a b : ℚ) : ℚ := roundDouble (a + b)

/-- Line 500 with the source's actual float semantics: `sum(...)` starts
at 0 and folds left-to-right with float addition, each cost read as the
double `float(v["cost"] or 0)`. -/
def vendor_spend_float (vendors : List Vendor) : ℚ :=
  vendors.foldl (fun acc v => fadd acc (roundDouble (v.cost.getD 0))) 0

/-! ## Theorems -/

/-- `Nat.log2` is characterised by the enclosing powers of two. -/
theorem log2_eq_of (n k : Nat) (h1 : 2 ^ k ≤ n) (h2 : n < 2 ^ (k + 1)) :
    Nat.log2 n = k := by
  rw [Nat.log2_eq_log_two]
  exact Nat.log_eq_of_pow_le_of_lt_pow h1 h2

theorem log2_one_eq : Nat.log2 1 = 0 := log2_eq_of 1 0 (by norm_num) (by norm_num)

theorem log2_two_eq : Nat.log2 2 = 1 := log2_eq_of 2 1 (by norm_num) (by norm_num)

theorem log2_e16 : Nat.log2 10000000000000000 = 53 :=
  log2_eq_of _ _ (by norm_num) (by norm_num)

theorem log2_e16p1 : Nat.log2 10000000000000001 = 53 :=
  log2_eq_of _ _ (by norm_num) (by norm_num)

theorem log2_e16p2 : Nat.log2 10000000000000002 = 53 :=
  log2_eq_of _ _ (by norm_num) (by norm_num)

/-- 1.0 is exactly representable. -/
theorem roundDouble_one : roundDouble 1 = 1 := by
  norm_num [roundDouble, floorLog2Rat, roundHalfEvenNat, log2_one_eq, max_def,
    Int.toNat_ofNat, Nat.mod_one]

/-- 2.0 is exactly representable. -/
theorem roundDouble_two : roundDouble 2 = 2 := by
  norm_num [roundDouble, floorLog2Rat, roundHalfEvenNat, log2_two_eq, log2_one_eq,
    max_def, Int.toNat_ofNat, Nat.mod_one]

/-- 1e16 is exactly representable (it is 5000000000000000 * 2). -/
theorem roundDouble_e16 : roundDouble 10000000000000000 = 10000000000000000 := by
  norm_num [roundDouble, floorLog2Rat, roundHalfEvenNat, log2_e16, log2_one_eq, max_def]

/-- 1e16 + 1 is odd and at exponent 1 it is a tie, rounded down to the
even mantissa: it collapses to 1e16. -/
theorem roundDouble_e16p1 : roundDouble 10000000000000001 = 10000000000000000 := by
  norm_num [roundDouble, floorLog2Rat, roundHalfEvenNat, log2_e16p1, log2_one_eq, max_def]

/-- 1e16 + 2 is exactly representable. -/
theorem roundDouble_e16p2 : roundDouble 10000000000000002 = 10000000000000002 := by
  norm_num [roundDouble, floorLog2Rat, roundHalfEvenNat, log2_e16p2, log2_one_eq, max_def]

/-- Counting occurrences of three pairwise distinct values of a field
splits the count of "one of the three": the three predicates are mutually
exclusive, so their counts add up. -/
theorem countP_three_disjoint {α : Type} (f : α → String) (a b c : String)
    (hab : a ≠ b) (hac : a ≠ c) (hbc : b ≠ c) (l : List α) :
    l.countP (fun x => f x == a) + l.countP (fun x => f x == b) +
        l.countP (fun x => f x == c) =
      l.countP (fun x => f x == a || f x == b || f x == c) := by
  induction l with
  | nil => rfl
  | cons x l ih =>
    simp only [List.countP_cons]
    by_cases h1 : f x = a <;> by_cases h2 : f x = b <;> by_cases h3 : f x = c <;>
      simp_all <;> omega

/-- C1: the RSVP breakdown counts guests by exact status: `total` is the
number of all guests, each bucket is the number of guests with exactly
that status, the three buckets never exceed `total`, and they exhaust it
precisely when every guest's status is one of the three known values
(an unrecognized status is counted in `total` only). -/
theorem rsvp_breakdown_correct (gs : List Guest) :
    total_guests gs = gs.length ∧
    accepted gs = gs.countP (fun g => g.rsvpstatus == "Accepted") ∧
    pending gs = gs.countP (fun g => g.rsvpstatus == "Pending") ∧
    declined gs = gs.countP (fun g => g.rsvpstatus == "Declined") ∧
    accepted gs + pending gs + declined gs ≤ total_guests gs ∧
    (accepted gs + pending gs + declined gs = total_guests gs ↔
      ∀ g ∈ gs, g.rsvpstatus = "Accepted" ∨ g.rsvpstatus = "Pending" ∨
        g.rsvpstatus = "Declined") := by
  have key := countP_three_disjoint Guest.rsvpstatus "Accepted" "Pending" "Declined"
    (by decide) (by decide) (by decide) gs
  refine ⟨rfl, rfl, rfl, rfl, ?_, ?_⟩
  · calc accepted gs + pending gs + declined gs
        = gs.countP (fun g => g.rsvpstatus == "Accepted" ||
            g.rsvpstatus == "Pending" || g.rsvpstatus == "Declined") := key
      _ ≤ gs.length := List.countP_le_length _
      _ = total_guests gs := rfl
  · rw [show accepted gs + pending gs + declined gs =
        gs.countP (fun g => g.rsvpstatus == "Accepted" ||
          g.rsvpstatus == "Pending" || g.rsvpstatus == "Declined") from key,
      show total_guests gs = gs.length from rfl, List.countP_eq_length]
    simp [or_assoc]

/-- C2: the budget summary subtracts exactly: `remaining` is
`budget - spend` with no clamping (overspend yields a negative value),
`spend` sums vendor costs with null cost as 0, and an empty vendor list
gives `spend = 0` and `remaining = budget`. -/
theorem budget_summary_correct (budget : Option ℚ) (vendors : List Vendor) :
    remaining budget vendors = total_budget budget - vendor_spend vendors ∧
    vendor_spend [] = 0 ∧
    remaining budget [] = total_budget budget ∧
    (∀ (v : Vendor) (vs : List Vendor),
      vendor_spend (v :: vs) = v.cost.getD 0 + vendor_spend vs) ∧
    (total_budget budget < vendor_spend vendors → remaining budget vendors < 0) := by
  refine ⟨rfl, rfl, by simp [remaining, vendor_spend], ?_, ?_⟩
  · intro v vs; simp [vendor_spend]
  · intro h
    simpa [remaining] using sub_neg.mpr h

/-- Witness for C2: budget 100 against a single vendor costing 150 leaves
a negative remainder. -/
theorem budget_summary_correct_witness :
    remaining (some 100) [⟨1, "DJ", none, none, some 150⟩] < 0 :=
  (budget_summary_correct (some 100) [⟨1, "DJ", none, none, some 150⟩]).2.2.2.2
    (by norm_num [total_budget, vendor_spend])

/-- Witness for C1: a guest list with one guest per known status plus one
guest with the unrecognized status "Maybe" satisfies the breakdown
properties; in particular the three buckets sum to 3 while `total` is 4. -/
theorem rsvp_breakdown_correct_witness :
    total_guests [⟨1, "a", "a@x", none, "Accepted"⟩, ⟨2, "b", "b@x", none, "Pending"⟩,
        ⟨3, "c", "c@x", none, "Declined"⟩, ⟨4, "d", "d@x", none, "Maybe"⟩] = 4 ∧
    accepted [⟨1, "a", "a@x", none, "Accepted"⟩, ⟨2, "b", "b@x", none, "Pending"⟩,
        ⟨3, "c", "c@x", none, "Declined"⟩, ⟨4, "d", "d@x", none, "Maybe"⟩] +
      pending [⟨1, "a", "a@x", none, "Accepted"⟩, ⟨2, "b", "b@x", none, "Pending"⟩,
        ⟨3, "c", "c@x", none, "Declined"⟩, ⟨4, "d", "d@x", none, "Maybe"⟩] +
      declined [⟨1, "a", "a@x", none, "Accepted"⟩, ⟨2, "b", "b@x", none, "Pending"⟩,
        ⟨3, "c", "c@x", none, "Declined"⟩, ⟨4, "d", "d@x", none, "Maybe"⟩] ≤ 4 :=
  ⟨rfl,
    (rsvp_breakdown_correct [⟨1, "a", "a@x", none, "Accepted"⟩,
      ⟨2, "b", "b@x", none, "Pending"⟩, ⟨3, "c", "c@x", none, "Declined"⟩,
      ⟨4, "d", "d@x", none, "Maybe"⟩]).2.2.2.2.1⟩

/-- C3 counterexample: an event on 9999-12-31 at 23:00:00 has a parseable
date and a present time, yet the program produces no block at all —
`start_dt + timedelta(hours=2)` exceeds `datetime.max` and raises
`OverflowError` — refuting "for every event whose date parses and whose
time is present, start and end are produced and end = start + 2 hours". -/
theorem project_overflow_no_block :
    parseDate "9999-12-31" = some ⟨9999, 12, 31⟩ ∧
    (⟨"Midnight", "9999-12-31", some ⟨23, 0, 0⟩, "upcoming"⟩ : CalEvent).time
      = some ⟨23, 0, 0⟩ ∧
    project ⟨"Midnight", "9999-12-31", some ⟨23, 0, 0⟩, "upcoming"⟩ =
      Except.error ProjectError.OverflowError ∧
    ∀ b : TimeBlock,
      project ⟨"Midnight", "9999-12-31", some ⟨23, 0, 0⟩, "upcoming"⟩ ≠
        Except.ok b :=
  ⟨rfl, rfl, rfl, fun _ h => Except.noConfusion h⟩

/-- C3 (amended): when the date parses, a time is present, and adding the
fixed 2-hour duration stays within the representable datetime range
(which fails only on 9999-12-31 with a start time of 22:00:00 or later),
the projected block starts at the combination of that date and time and
ends exactly two hours later, for every event. -/
theorem project_start_end (e : CalEvent) (d : Date) (t : Time) (ed : DateTime)
    (hd : parseDate e.date = some d) (ht : e.time = some t)
    (ha : DateTime.addHours ⟨d, t.toSec⟩ 2 = some ed) :
    project e = Except.ok
      { title := e.title
        start := ⟨d, t.toSec⟩
        endTime := ed
        resourceId := "a"
        backgroundColor := statusColor e.status } := by
  simp [project, hd, ht, ha]

/-- Witness for C3: date 2024-06-01 with time 18:00:00 projects to start
2024-06-01T18:00:00 (second 64800 of the day) and end 2024-06-01T20:00:00
(second 72000). -/
theorem project_start_end_witness :
    project ⟨"Launch", "2024-06-01", some ⟨18, 0, 0⟩, "upcoming"⟩ =
      Except.ok
        { title := "Launch"
          start := ⟨⟨2024, 6, 1⟩, 64800⟩
          endTime := ⟨⟨2024, 6, 1⟩, 72000⟩
          resourceId := "a"
          backgroundColor := "#3788d8" } :=
  (project_start_end ⟨"Launch", "2024-06-01", some ⟨18, 0, 0⟩, "upcoming"⟩
    ⟨2024, 6, 1⟩ ⟨18, 0, 0⟩ ⟨⟨2024, 6, 1⟩, 72000⟩ rfl rfl rfl).trans rfl

/-- C4 counterexample: for the event dated 9999-12-31 at 22:30:00 the date
parses, yet the projection raises an error — `OverflowError`, which is not
`InvalidDateError` — refuting "for every event whose date does parse, no
error is raised". -/
theorem project_parse_ok_but_error :
    (∃ d, parseDate "9999-12-31" = some d) ∧
    project ⟨"Late", "9999-12-31", some ⟨22, 30, 0⟩, "ongoing"⟩ =
      Except.error ProjectError.OverflowError ∧
    ProjectError.OverflowError ≠ ProjectError.InvalidDateError :=
  ⟨⟨⟨9999, 12, 31⟩, rfl⟩, rfl, by decide⟩

/-- C4 (amended): the projection fails with `InvalidDateError` exactly when
the event's date string does not parse as a calendar date; when the date
parses, the only remaining failure is `OverflowError`, raised exactly when
adding the 2-hour duration exceeds `datetime.max` (a start on 9999-12-31
rolling past midnight); otherwise a block is produced and no error is
raised. -/
theorem project_invalid_date (e : CalEvent) :
    (project e = Except.error ProjectError.InvalidDateError ↔
      parseDate e.date = none) ∧
    ∀ d, parseDate e.date = some d →
      ((project e = Except.error ProjectError.OverflowError ↔
        DateTime.addHours ⟨d, (e.time.getD ⟨9, 0, 0⟩).toSec⟩ 2 = none) ∧
       ∀ ed, DateTime.addHours ⟨d, (e.time.getD ⟨9, 0, 0⟩).toSec⟩ 2 = some ed →
        project e = Except.ok
          { title := e.title
            start := ⟨d, (e.time.getD ⟨9, 0, 0⟩).toSec⟩
            endTime := ed
            resourceId := "a"
            backgroundColor := statusColor e.status }) := by
  constructor
  · constructor
    · intro h
      cases hp : parseDate e.date with
      | none => rfl
      | some d =>
        cases ha : DateTime.addHours ⟨d, (e.time.getD ⟨9, 0, 0⟩).toSec⟩ 2 with
        | none => simp [project, hp, ha] at h
        | some ed => simp [project, hp, ha] at h
    · intro h
      simp [project, h]
  · intro d hd
    constructor
    · constructor
      · intro h
        cases ha : DateTime.addHours ⟨d, (e.time.getD ⟨9, 0, 0⟩).toSec⟩ 2 with
        | none => rfl
        | some ed => simp [project, hd, ha] at h
      · intro ha
        simp [project, hd, ha]
    · intro ed ha
      simp [project, hd, ha]

/-- Witness for C4: "not-a-date" fails with `InvalidDateError`, a start of
9999-12-31 23:30:00 fails with `OverflowError`, and "2024-06-01" with no
time projects without error. -/
theorem project_invalid_date_witness :
    project ⟨"Bad", "not-a-date", none, "upcoming"⟩ =
      Except.error ProjectError.InvalidDateError ∧
    project ⟨"Edge", "9999-12-31", some ⟨23, 30, 0⟩, "upcoming"⟩ =
      Except.error ProjectError.OverflowError ∧
    project ⟨"Ok", "2024-06-01", none, "upcoming"⟩ =
      Except.ok
        { title := "Ok"
          start := ⟨⟨2024, 6, 1⟩, 32400⟩
          endTime := ⟨⟨2024, 6, 1⟩, 39600⟩
          resourceId := "a"
          backgroundColor := "#3788d8" } :=
  ⟨(project_invalid_date ⟨"Bad", "not-a-date", none, "upcoming"⟩).1.mpr rfl,
    (((project_invalid_date ⟨"Edge", "9999-12-31", some ⟨23, 30, 0⟩, "upcoming"⟩).2
      ⟨9999, 12, 31⟩ rfl).1).mpr rfl,
    (((project_invalid_date ⟨"Ok", "2024-06-01", none, "upcoming"⟩).2
      ⟨2024, 6, 1⟩ rfl).2 ⟨⟨2024, 6, 1⟩, 39600⟩ rfl).trans rfl⟩

/-- C6: when the event's time is absent, the projected block starts at
09:00:00 (second 32400 of the day) on the parsed date, ending at 11:00:00
(this default never reaches the overflowing region). -/
theorem project_default_time (e : CalEvent) (d : Date)
    (hd : parseDate e.date = some d) (ht : e.time = none) :
    project e = Except.ok
      { title := e.title
        start := ⟨d, 32400⟩
        endTime := ⟨d, 39600⟩
        resourceId := "a"
        backgroundColor := statusColor e.status } := by
  have ha : DateTime.addHours ⟨d, 32400⟩ 2 = some ⟨d, 39600⟩ := by
    norm_num [DateTime.addHours, DateTime.addSeconds]
  simp [project, hd, ht, Time.toSec, ha]

/-- Witness for C6: an event dated 2024-06-01 with no time starts at
2024-06-01T09:00:00. -/
theorem project_default_time_witness :
    project ⟨"NoTime", "2024-06-01", none, "completed"⟩ =
      Except.ok
        { title := "NoTime"
          start := ⟨⟨2024, 6, 1⟩, 32400⟩
          endTime := ⟨⟨2024, 6, 1⟩, 39600⟩
          resourceId := "a"
          backgroundColor := "#6c757d" } :=
  (project_default_time ⟨"NoTime", "2024-06-01", none, "completed"⟩
    ⟨2024, 6, 1⟩ rfl rfl).trans rfl

/-- C7: every successfully projected block's color is determined solely by
the event's status through the fixed mapping, the three known statuses map
to blue, green and gray, and every other status falls back to the same
blue as "upcoming" without an error being raised. -/
theorem project_color_policy :
    (∀ (e : CalEvent) (b : TimeBlock), project e = Except.ok b →
      b.backgroundColor = statusColor e.status) ∧
    statusColor "upcoming" = "#3788d8" ∧
    statusColor "ongoing" = "#28a745" ∧
    statusColor "completed" = "#6c757d" ∧
    (∀ s, s ≠ "upcoming" → s ≠ "ongoing" → s ≠ "completed" →
      statusColor s = statusColor "upcoming") := by
  refine ⟨?_, rfl, rfl, rfl, ?_⟩
  · intro e b h
    cases hp : parseDate e.date with
    | none => simp [project, hp] at h
    | some d =>
      cases ha : DateTime.addHours ⟨d, (e.time.getD ⟨9, 0, 0⟩).toSec⟩ 2 with
      | none => simp [project, hp, ha] at h
      | some ed =>
        simp [project, hp, ha] at h
        rw [← h]
  · intro s h1 h2 h3
    have e1 : (s == "upcoming") = false := beq_eq_false_iff_ne.mpr h1
    have e2 : (s == "ongoing") = false := beq_eq_false_iff_ne.mpr h2
    have e3 : (s == "completed") = false := beq_eq_false_iff_ne.mpr h3
    simp [statusColor, status_colors, List.lookup, e1, e2, e3]

/-- Witness for C7: the unrecognized status "archived" receives the same
color as "upcoming", and an actual projection with that status carries it. -/
theorem project_color_policy_witness :
    statusColor "archived" = statusColor "upcoming" ∧
    (∃ b, project ⟨"A", "2024-06-01", none, "archived"⟩ = Except.ok b ∧
      b.backgroundColor = statusColor "archived") :=
  ⟨project_color_policy.2.2.2.2 "archived" (by decide) (by decide) (by decide),
    ⟨_, rfl, project_color_policy.1 ⟨"A", "2024-06-01", none, "archived"⟩ _ rfl⟩⟩

/-- C5 counterexample: the dashboard's task stats are only the three
status counters — no `total` is computed.  On a one-task collection whose
status "Blocked" is unrecognized, every quantity the code derives from the
tasks is 0, while the number of all tasks is 1: no returned counter equals
the total, refuting the claimed four-counter breakdown with
`total == len(tasks)`. -/
theorem task_stats_no_total :
    task_stats [⟨1, "Book venue", none, "2024-06-01", "Ann", "Blocked"⟩] =
      (0, 0, 0) ∧
    ([⟨1, "Book venue", none, "2024-06-01", "Ann", "Blocked"⟩] : List Task).length
      = 1 ∧
    completed_tasks [⟨1, "Book venue", none, "2024-06-01", "Ann", "Blocked"⟩] ≠ 1 ∧
    in_progress_tasks [⟨1, "Book venue", none, "2024-06-01", "Ann", "Blocked"⟩] ≠ 1 ∧
    not_started_tasks [⟨1, "Book venue", none, "2024-06-01", "Ann", "Blocked"⟩] ≠ 1 := by
  refine ⟨rfl, rfl, ?_, ?_, ?_⟩ <;> decide

/-- C5 (amended): the task breakdown consists of the three counters
`completed`, `in_progress` and `not_started`, each the number of tasks
with exactly that status; a task with an unrecognized status counts in
none of them (and no `total` counter is computed); the three counters
never exceed the number of tasks, exhaust it exactly when every status is
recognized, and are all zero on the empty collection. -/
theorem task_breakdown_amended (ts : List Task) :
    completed_tasks ts = ts.countP (fun t => t.status == "Completed") ∧
    in_progress_tasks ts = ts.countP (fun t => t.status == "In Progress") ∧
    not_started_tasks ts = ts.countP (fun t => t.status == "Not Started") ∧
    completed_tasks ts + in_progress_tasks ts + not_started_tasks ts ≤ ts.length ∧
    (completed_tasks ts + in_progress_tasks ts + not_started_tasks ts = ts.length ↔
      ∀ t ∈ ts, t.status = "Completed" ∨ t.status = "In Progress" ∨
        t.status = "Not Started") ∧
    task_stats [] = (0, 0, 0) := by
  have key := countP_three_disjoint Task.status "Completed" "In Progress" "Not Started"
    (by decide) (by decide) (by decide) ts
  refine ⟨rfl, rfl, rfl, ?_, ?_, rfl⟩
  · calc completed_tasks ts + in_progress_tasks ts + not_started_tasks ts
        = ts.countP (fun t => t.status == "Completed" ||
            t.status == "In Progress" || t.status == "Not Started") := key
      _ ≤ ts.length := List.countP_le_length _
  · rw [show completed_tasks ts + in_progress_tasks ts + not_started_tasks ts =
        ts.countP (fun t => t.status == "Completed" ||
          t.status == "In Progress" || t.status == "Not Started") from key,
      List.countP_eq_length]
    simp [or_assoc]

/-- Witness for the amended C5: on one completed task plus one "Blocked"
task the counters are (1, 0, 0), below the collection's size 2. -/
theorem task_breakdown_amended_witness :
    completed_tasks [⟨1, "a", none, "2024-06-01", "Ann", "Completed"⟩,
        ⟨2, "b", none, "2024-06-01", "Bob", "Blocked"⟩] +
      in_progress_tasks [⟨1, "a", none, "2024-06-01", "Ann", "Completed"⟩,
        ⟨2, "b", none, "2024-06-01", "Bob", "Blocked"⟩] +
      not_started_tasks [⟨1, "a", none, "2024-06-01", "Ann", "Completed"⟩,
        ⟨2, "b", none, "2024-06-01", "Bob", "Blocked"⟩] ≤ 2 :=
  (task_breakdown_amended [⟨1, "a", none, "2024-06-01", "Ann", "Completed"⟩,
    ⟨2, "b", none, "2024-06-01", "Bob", "Blocked"⟩]).2.2.2.1

/-- C8: `load_events` returns exactly the given owner's events (a
permutation of the table filtered to that owner), with consecutive
results in ascending date order. -/
theorem load_events_spec (db : List EventRow) (auth_id : String) :
    (∀ e ∈ load_events db auth_id, e.auth_user_id = auth_id) ∧
    (load_events db auth_id).Chain' (fun a b => a.date.key ≤ b.date.key) ∧
    (load_events db auth_id).Perm
      (db.filter (fun e => e.auth_user_id == auth_id)) := by
  refine ⟨?_, ?_, List.mergeSort_perm _ _⟩
  · intro e he
    rw [load_events, List.mem_mergeSort, List.mem_filter] at he
    exact eq_of_beq he.2
  · have h := @List.sorted_mergeSort EventRow
      (fun a b : EventRow => a.date.key ≤ b.date.key)
      (by intro a b c hab hbc
          simp only [decide_eq_true_eq] at hab hbc ⊢
          omega)
      (by intro a b
          simp only [Bool.or_eq_true, decide_eq_true_eq]
          omega)
      (db.filter (fun e => e.auth_user_id == auth_id))
    exact (h.imp (fun hd => by simpa using hd)).chain'

/-- A small concrete events table: two events of owner "u" stored out of
date order, and one event of another owner. -/
def dbExample : List EventRow :=
  [⟨1, "July party", none, ⟨2024, 7, 5⟩, none, none, none, some 500, "upcoming", "u"⟩,
   ⟨2, "Other owner", none, ⟨2024, 1, 1⟩, none, none, none, none, "upcoming", "v"⟩,
   ⟨3, "June dinner", none, ⟨2024, 6, 1⟩, none, none, none, some 200, "ongoing", "u"⟩]

/-- Witness for C8: on the concrete table, the loaded list contains only
owner "u"'s events, consecutive dates ascend, and it is a permutation of
the owner's rows. -/
theorem load_events_spec_witness :
    (∀ e ∈ load_events dbExample "u", e.auth_user_id = "u") ∧
    (load_events dbExample "u").Chain' (fun a b => a.date.key ≤ b.date.key) ∧
    (load_events dbExample "u").Perm
      (dbExample.filter (fun e => e.auth_user_id == "u")) :=
  load_events_spec dbExample "u"

/-- C9: the "Save Changes" update maps `updateRow` over the table; a row
whose `eventid` differs is left literally unchanged; the matching row gets
the new status and budget; and no row's other columns (`eventid`, title,
description, date, time, venue, category, owner) ever change. -/
theorem save_changes_frame (db : List EventRow) (eventid : Nat)
    (new_status : String) (new_budget : ℚ) :
    update_event db eventid new_status new_budget =
      db.map (updateRow eventid new_status new_budget) ∧
    (∀ e : EventRow, e.eventid ≠ eventid →
      updateRow eventid new_status new_budget e = e) ∧
    (∀ e : EventRow, e.eventid = eventid →
      (updateRow eventid new_status new_budget e).status = new_status ∧
      (updateRow eventid new_status new_budget e).budget = some new_budget) ∧
    ∀ e : EventRow,
      (updateRow eventid new_status new_budget e).eventid = e.eventid ∧
      (updateRow eventid new_status new_budget e).title = e.title ∧
      (updateRow eventid new_status new_budget e).description = e.description ∧
      (updateRow eventid new_status new_budget e).date = e.date ∧
      (updateRow eventid new_status new_budget e).time = e.time ∧
      (updateRow eventid new_status new_budget e).venue = e.venue ∧
      (updateRow eventid new_status new_budget e).category = e.category ∧
      (updateRow eventid new_status new_budget e).auth_user_id = e.auth_user_id := by
  refine ⟨rfl, ?_, ?_, ?_⟩
  · intro e h
    simp [updateRow, h]
  · intro e h
    simp [updateRow, h]
  · intro e
    by_cases h : e.eventid = eventid <;> simp [updateRow, h]

/-- Witness for C9: updating event 1 to status "completed" and budget 250
leaves row 2 untouched, sets exactly the two fields on row 1, and keeps
row 1's title. -/
theorem save_changes_frame_witness :
    updateRow 1 "completed" 250
        ⟨2, "Other owner", none, ⟨2024, 1, 1⟩, none, none, none, none, "upcoming", "v"⟩ =
      ⟨2, "Other owner", none, ⟨2024, 1, 1⟩, none, none, none, none, "upcoming", "v"⟩ ∧
    (updateRow 1 "completed" 250
      ⟨1, "July party", none, ⟨2024, 7, 5⟩, none, none, none, some 500, "upcoming", "u"⟩).status
      = "completed" ∧
    (updateRow 1 "completed" 250
      ⟨1, "July party", none, ⟨2024, 7, 5⟩, none, none, none, some 500, "upcoming", "u"⟩).budget
      = some 250 ∧
    (updateRow 1 "completed" 250
      ⟨1, "July party", none, ⟨2024, 7, 5⟩, none, none, none, some 500, "upcoming", "u"⟩).title
      = "July party" :=
  ⟨(save_changes_frame dbExample 1 "completed" 250).2.1
      ⟨2, "Other owner", none, ⟨2024, 1, 1⟩, none, none, none, none, "upcoming", "v"⟩
      (by decide),
    ((save_changes_frame dbExample 1 "completed" 250).2.2.1
      ⟨1, "July party", none, ⟨2024, 7, 5⟩, none, none, none, some 500, "upcoming", "u"⟩
      rfl).1,
    ((save_changes_frame dbExample 1 "completed" 250).2.2.1
      ⟨1, "July party", none, ⟨2024, 7, 5⟩, none, none, none, some 500, "upcoming", "u"⟩
      rfl).2,
    ((save_changes_frame dbExample 1 "completed" 250).2.2.2
      ⟨1, "July party", none, ⟨2024, 7, 5⟩, none, none, none, some 500, "upcoming", "u"⟩).2.1⟩

/-- C10 counterexample: the program's vendor spend is a left-to-right
IEEE binary64 summation and is not permutation-invariant.  The two vendor
lists below are permutations of each other, yet summing costs
[1e16, 1.0, 1.0] gives 1e16 (each +1.0 is absorbed by rounding) while the
permutation [1.0, 1.0, 1e16] gives 1.0000000000000002e16. -/
theorem vendor_spend_float_order_dependent :
    ([⟨1, "Big", none, none, some 10000000000000000⟩,
      ⟨2, "One", none, none, some 1⟩,
      ⟨3, "Two", none, none, some 1⟩] : List Vendor).Perm
      [⟨2, "One", none, none, some 1⟩, ⟨3, "Two", none, none, some 1⟩,
        ⟨1, "Big", none, none, some 10000000000000000⟩] ∧
    vendor_spend_float [⟨1, "Big", none, none, some 10000000000000000⟩,
      ⟨2, "One", none, none, some 1⟩, ⟨3, "Two", none, none, some 1⟩] =
      10000000000000000 ∧
    vendor_spend_float [⟨2, "One", none, none, some 1⟩,
      ⟨3, "Two", none, none, some 1⟩,
      ⟨1, "Big", none, none, some 10000000000000000⟩] =
      10000000000000002 ∧
    vendor_spend_float [⟨1, "Big", none, none, some 10000000000000000⟩,
      ⟨2, "One", none, none, some 1⟩, ⟨3, "Two", none, none, some 1⟩] ≠
      vendor_spend_float [⟨2, "One", none, none, some 1⟩,
        ⟨3, "Two", none, none, some 1⟩,
        ⟨1, "Big", none, none, some 10000000000000000⟩] := by
  refine ⟨(List.perm_append_singleton _ _).symm, ?_, ?_, ?_⟩
  · norm_num [vendor_spend_float, fadd, roundDouble_e16, roundDouble_one,
      roundDouble_e16p1]
  · norm_num [vendor_spend_float, fadd, roundDouble_e16, roundDouble_one,
      roundDouble_two, roundDouble_e16p2]
  · norm_num [vendor_spend_float, fadd, roundDouble_e16, roundDouble_one,
      roundDouble_two, roundDouble_e16p1, roundDouble_e16p2]

/-- C10 (amended): the counting aggregates are order-independent —
permuting the guest or task collection changes none of the RSVP or
task-status counters (they are fold-over-multiset quantities computed in
exact integer arithmetic).  The vendor spend is excluded: its float
summation is order-dependent (see the counterexample); only its exact
ideal is permutation-invariant. -/
theorem aggregates_perm_invariant (gs gs' : List Guest)
    (ts ts' : List Task) (hg : gs.Perm gs') (ht : ts.Perm ts') :
    total_guests gs = total_guests gs' ∧
    accepted gs = accepted gs' ∧
    pending gs = pending gs' ∧
    declined gs = declined gs' ∧
    completed_tasks ts = completed_tasks ts' ∧
    in_progress_tasks ts = in_progress_tasks ts' ∧
    not_started_tasks ts = not_started_tasks ts' :=
  ⟨hg.length_eq, hg.countP_eq _, hg.countP_eq _, hg.countP_eq _,
    ht.countP_eq _, ht.countP_eq _, ht.countP_eq _⟩

/-- Witness for the amended C10: swapping two concrete guests and two
concrete tasks changes no counter. -/
theorem aggregates_perm_invariant_witness :
    accepted [⟨1, "a", "a@x", none, "Accepted"⟩, ⟨2, "b", "b@x", none, "Pending"⟩] =
      accepted [⟨2, "b", "b@x", none, "Pending"⟩, ⟨1, "a", "a@x", none, "Accepted"⟩] ∧
    completed_tasks [⟨1, "a", none, "2024-06-01", "Ann", "Completed"⟩,
        ⟨2, "b", none, "2024-06-01", "Bob", "Blocked"⟩] =
      completed_tasks [⟨2, "b", none, "2024-06-01", "Bob", "Blocked"⟩,
        ⟨1, "a", none, "2024-06-01", "Ann", "Completed"⟩] :=
  have h := aggregates_perm_invariant
    [⟨1, "a", "a@x", none, "Accepted"⟩, ⟨2, "b", "b@x", none, "Pending"⟩]
    [⟨2, "b", "b@x", none, "Pending"⟩, ⟨1, "a", "a@x", none, "Accepted"⟩]
    [⟨1, "a", none, "2024-06-01", "Ann", "Completed"⟩,
      ⟨2, "b", none, "2024-06-01", "Bob", "Blocked"⟩]
    [⟨2, "b", none, "2024-06-01", "Bob", "Blocked"⟩,
      ⟨1, "a", none, "2024-06-01", "Ann", "Completed"⟩]
    (List.Perm.swap _ _ _) (List.Perm.swap _ _ _)
  ⟨h.2.1, h.2.2.2.2.1⟩

end Happenly
